import Mathlib

/-!
Verification development for the CarbonCut client-side telemetry SDK.

The code under scrutiny is a JavaScript tracker with a dual-mode event
transport.  The repository contains several evolved generations of the
same modules; the shipped bundle (dist/carboncut.js) contains the most
recent generation.  We embed both where they diverge:

* `transportSend` / `transportFlushQueue` — the main-thread Direct Mode
  transport (src/transport/api.js; identical in the dist bundle).
* `workerV1Flush` — the inline background worker of
  src/transport/api-worker.js and src/workers/event-worker.js, which
  delivers a batch with one combined POST request.
* `workerV2Flush` — the inline background worker of the v2
  ApiWorkerTransport (dist bundle and the unnamed v2 transport source),
  which delivers a batch with one GET request per event.
* `v1QueueSizeStep` / `v2QueueSizeStep` — the main-thread queueSize
  bookkeeping of the respective ApiWorkerTransport generations.
* `trackerSendV2`, `checkUrlConversions`, `sessionStart` — the most
  recent EventTracker generation (src/tracking/event.js second half,
  identical in the dist bundle) and the Session object.

JavaScript values appearing in payloads are embedded as `JSValue`;
machine integers are exact (`Int`/`Nat`), network and platform effects
are explicit oracle parameters, and every definition is executable.
-/

namespace CarbonCut

/-- JavaScript values that occur in tracker event payloads. -/
inductive JSValue : Type
  | vUndefined
  | vNull
  | vBool (b : Bool)
  | vNum (n : Int)
  | vStr (s : String)
  | vArr (elems : List JSValue)
  | vObj (fields : List (String × JSValue))

/-- An event payload is a JavaScript object: ordered fields, as iterated
by `Object.entries`.  Keys of an object literal are distinct. -/
abbrev Payload := List (String × JSValue)

/-- Lowercase hex digit, as produced by `Number.prototype.toString(16)`. -/
def hexDigitChar (n : Nat) : Char :=
  if n < 10 then Char.ofNat (48 + n) else Char.ofNat (87 + n)

/-- Uppercase hex digit, as produced by percent-encoding. -/
def hexDigitUpper (n : Nat) : Char :=
  if n < 10 then Char.ofNat (48 + n) else Char.ofNat (55 + n)

/-- Escape of a single character inside a JSON string literal, following
`JSON.stringify` (quote and backslash escaped, named control escapes,
`\u00xx` for the remaining control characters). -/
def escapeJsonChar (c : Char) : String :=
  if c = '"' then "\\\""
  else if c = '\\' then "\\\\"
  else if c = Char.ofNat 8 then "\\b"
  else if c = Char.ofNat 9 then "\\t"
  else if c = Char.ofNat 10 then "\\n"
  else if c = Char.ofNat 12 then "\\f"
  else if c = Char.ofNat 13 then "\\r"
  else if c.toNat < 32 then
    "\\u00" ++ String.mk [hexDigitChar (c.toNat / 16), hexDigitChar (c.toNat % 16)]
  else String.singleton c

/-- A JSON string literal with its quotes, following `JSON.stringify`. -/
def jsonQuote (s : String) : String :=
  "\"" ++ String.join (s.toList.map escapeJsonChar) ++ "\""

mutual

/-- The text produced by `JSON.stringify` on a `JSValue`.  `vUndefined`
is only reachable in array-element position, where `JSON.stringify`
emits `null`; an object field holding `undefined` is omitted (see
`jsonFields`). -/
def jsonStr : JSValue → String
  | .vUndefined => "null"
  | .vNull => "null"
  | .vBool b => cond b "true" "false"
  | .vNum n => toString n
  | .vStr s => jsonQuote s
  | .vArr xs => "[" ++ String.intercalate "," (jsonList xs) ++ "]"
  | .vObj fs => "\x7b" ++ String.intercalate "," (jsonFields fs) ++ "\x7d"

/-- JSON texts of the elements of an array. -/
def jsonList : List JSValue → List String
  | [] => []
  | x :: xs => jsonStr x :: jsonList xs

/-- JSON texts of the fields of an object; fields holding `undefined`
are omitted, as `JSON.stringify` does. -/
def jsonFields : List (String × JSValue) → List String
  | [] => []
  | (_, .vUndefined) :: fs => jsonFields fs
  | (k, v) :: fs => (jsonQuote k ++ ":" ++ jsonStr v) :: jsonFields fs

end

/-- The result of JavaScript `String(value)` on the primitive values that
reach the final branch of `buildQueryString`.  Arrays and plain objects
never reach that branch (they take the `JSON.stringify` branches), so
their clauses here are unused by the embedding of `buildQueryString`. -/
def jsPrimString : JSValue → String
  | .vUndefined => "undefined"
  | .vNull => "null"
  | .vBool b => cond b "true" "false"
  | .vNum n => toString n
  | .vStr s => s
  | .vArr _ => ""
  | .vObj _ => "[object Object]"

/-- Characters that `URLSearchParams.toString()` leaves unencoded
(the `application/x-www-form-urlencoded` safe set). -/
def isFormSafeChar (c : Char) : Bool :=
  ('A' ≤ c && c ≤ 'Z') || ('a' ≤ c && c ≤ 'z') || ('0' ≤ c && c ≤ '9') ||
    c = '*' || c = '-' || c = '.' || c = '_'

/-- UTF-8 bytes of a character. -/
def utf8Bytes (c : Char) : List Nat :=
  let n := c.toNat
  if n < 128 then [n]
  else if n < 2048 then
    [192 ||| (n >>> 6), 128 ||| (n &&& 63)]
  else if n < 65536 then
    [224 ||| (n >>> 12), 128 ||| ((n >>> 6) &&& 63), 128 ||| (n &&& 63)]
  else
    [240 ||| (n >>> 18), 128 ||| ((n >>> 12) &&& 63),
      128 ||| ((n >>> 6) &&& 63), 128 ||| (n &&& 63)]

/-- Percent-encoding of one byte, uppercase hex. -/
def percentByte (b : Nat) : String :=
  "%" ++ String.mk [hexDigitUpper (b / 16), hexDigitUpper (b % 16)]

/-- Form-urlencoding of one character: safe characters kept, space
becomes `+`, everything else percent-encoded bytewise. -/
def formEncodeChar (c : Char) : String :=
  if isFormSafeChar c then String.singleton c
  else if c = ' ' then "+"
  else String.join ((utf8Bytes c).map percentByte)

/-- Form-urlencoding of a string. -/
def formEncode (s : String) : String :=
  String.join (s.toList.map formEncodeChar)

/-- `URLSearchParams.toString()` over an ordered parameter list. -/
def renderParams (ps : List (String × String)) : String :=
  String.intercalate "&" (ps.map (fun kv => formEncode kv.1 ++ "=" ++ formEncode kv.2))

/-- One iteration of the `Object.entries(payload).forEach` loop of
`ApiTransport.buildQueryString` (src/transport/api.js lines 33-46):
null/undefined values are skipped (`return`), a non-array object or an
array is `JSON.stringify`-ed and appended as the single parameter
value, every other value is appended converted with `String`. -/
def qsStep (params : List (String × String)) (kv : String × JSValue) :
    List (String × String) :=
  match kv.2 with
  | .vNull => params
  | .vUndefined => params
  | .vObj fs => params ++ [(kv.1, jsonStr (.vObj fs))]
  | .vArr xs => params ++ [(kv.1, jsonStr (.vArr xs))]
  | .vBool b => params ++ [(kv.1, jsPrimString (.vBool b))]
  | .vNum n => params ++ [(kv.1, jsPrimString (.vNum n))]
  | .vStr s => params ++ [(kv.1, jsPrimString (.vStr s))]

/-- The ordered parameter list accumulated by
`ApiTransport.buildQueryString` (src/transport/api.js lines 29-49). -/
def buildQueryStringParams (payload : Payload) : List (String × String) :=
  payload.foldl qsStep []

/-- `ApiTransport.buildQueryString`: the accumulated parameters rendered
by `URLSearchParams.toString()`. -/
def buildQueryString (payload : Payload) : String :=
  renderParams (buildQueryStringParams payload)

/-- Claim-side description of one query parameter, written from the
specification's words for comparison against `buildQueryStringParams`:
keys with null/undefined values are omitted, object and array values are
JSON-stringified, all other values are converted with `String`. -/
def specQsEntry (kv : String × JSValue) : Option (String × String) :=
  match kv.2 with
  | .vNull => none
  | .vUndefined => none
  | .vObj fs => some (kv.1, jsonStr (.vObj fs))
  | .vArr xs => some (kv.1, jsonStr (.vArr xs))
  | v => some (kv.1, jsPrimString v)

/-- Does a JavaScript value fail the `value === null || value === undefined`
skip test of `buildQueryString`? -/
def isNullOrUndef : JSValue → Bool
  | .vNull => true
  | .vUndefined => true
  | _ => false

/-- Value of `payload.key` on a payload object: the first field with
that key (object fields have distinct keys), or `undefined` when the
field is missing. -/
def getProp : Payload → String → JSValue
  | [], _ => .vUndefined
  | kv :: rest, k => if kv.1 == k then kv.2 else getProp rest k

/-- Endpoint normalization of `sendViaGet`: a trailing slash is removed
(`url.slice(0, -1)`) before the query string is appended. -/
def stripTrailingSlash (url : String) : String :=
  if url.endsWith "/" then url.dropRight 1 else url

/-- Result of an asynchronous `fetch` call: it resolves with an HTTP
status, or rejects with an error message. -/
inductive FetchOutcome : Type
  | resolved (status : Nat)
  | rejected (msg : String)
deriving DecidableEq, Repr

/-- Network requests observable on the wire. -/
inductive Request : Type
  | get (url : String) (token : String)
  | post (url : String) (token : String) (body : String)
  | beacon (url : String) (body : String)
deriving DecidableEq, Repr

/-- Is a request an individual GET request? -/
def Request.isGet : Request → Bool
  | .get _ _ => true
  | _ => false

/-- Platform environment for one `ApiTransport.send` call: whether
`navigator.sendBeacon` exists, what it returns, and how the `fetch`
settles. -/
structure SendEnv : Type where
  beaconAvailable : Bool
  beaconOk : Bool
  fetchResult : FetchOutcome
deriving DecidableEq, Repr

/-- `ApiTransport.shouldUseSendBeacon`: the critical event types.  The
argument is `payload.event`; `Array.prototype.includes` matching only
ever succeeds on those exact strings. -/
def shouldUseSendBeacon : JSValue → Bool
  | .vStr s => s == "session_end" || s == "page_unload"
  | _ => false

/-- Error raised by `sendViaGet` for a settled `fetch`, `none` on
success (status 200 or 202).  For a 500 the code tries to throw
`API Error: ...` from inside its own `try`, so that throw is caught by
the same `catch (parseError)` and the generic
`HTTP error! status: 500` is what actually propagates; every non-2xx
status therefore yields the generic message. -/
def getFailureMsg (env : SendEnv) : Option String :=
  match env.fetchResult with
  | .resolved s =>
      if s == 200 || s == 202 then none
      else some ("HTTP error! status: " ++ toString s)
  | .rejected m => some m

/-- The GET request issued by `sendViaGet` (and, identically, by the v2
background worker): stripped endpoint, query string from the payload,
token in the `X-Tracker-Token` header. -/
def sendViaGetReq (apiUrl token : String) (p : Payload) : Request :=
  .get (stripTrailingSlash apiUrl ++ "?" ++ buildQueryString p) token

/-- Observable outcome of one `ApiTransport.send` call. -/
structure SendResult : Type where
  success : Bool
  queue : List Payload
  requests : List Request

/-- `ApiTransport.send` (src/transport/api.js lines 51-80).  Offline:
the payload is queued and the call fails without touching the network.
Online: critical events first attempt `sendBeacon`; on beacon failure or
for ordinary events a GET request is issued, whose failure appends the
payload to the queue inside the `catch` block. -/
def transportSend (apiUrl token : String) (isOnline : Bool) (queue : List Payload)
    (env : SendEnv) (p : Payload) : SendResult :=
  if !isOnline then
    ⟨false, queue ++ [p], []⟩
  else
    let beaconTried := shouldUseSendBeacon (getProp p "event") && env.beaconAvailable
    let beaconReqs : List Request :=
      if beaconTried then [.beacon apiUrl (jsonStr (.vObj p))] else []
    if beaconTried && env.beaconOk then
      ⟨true, queue, beaconReqs⟩
    else
      let req := sendViaGetReq apiUrl token p
      match getFailureMsg env with
      | none => ⟨true, queue, beaconReqs ++ [req]⟩
      | some _ => ⟨false, queue ++ [p], beaconReqs ++ [req]⟩

/-- Success of a `transportSend` call, which does not depend on the
queue contents. -/
def sendSucceeds (isOnline : Bool) (env : SendEnv) (p : Payload) : Bool :=
  isOnline &&
    ((shouldUseSendBeacon (getProp p "event") && env.beaconAvailable && env.beaconOk) ||
      (getFailureMsg env).isNone)

/-- The delivery loop of `ApiTransport.flushQueue` (lines 145-150): each
snapshotted payload is passed to `send`, and on failure is pushed to the
queue again by the loop itself. -/
def flushLoop (apiUrl token : String) (isOnline : Bool)
    (work : List (Payload × SendEnv)) (queue : List Payload) :
    List Payload × List Request :=
  match work with
  | [] => (queue, [])
  | (p, e) :: rest =>
      let r := transportSend apiUrl token isOnline queue e p
      let q1 := if r.success then r.queue else r.queue ++ [p]
      let res := flushLoop apiUrl token isOnline rest q1
      (res.1, r.requests ++ res.2)

/-- `ApiTransport.flushQueue` (src/transport/api.js lines 138-151):
snapshot the queue, clear it, deliver each entry in order.  The network
environment of the i-th delivery attempt is `envs[i]`. -/
def transportFlushQueue (apiUrl token : String) (isOnline : Bool)
    (envs : List SendEnv) (queue : List Payload) : List Payload × List Request :=
  if queue.isEmpty then (queue, [])
  else flushLoop apiUrl token isOnline (queue.zip envs) []

/-- Messages posted from the background worker to the main thread. -/
inductive WorkerMsg : Type
  | initSuccess
  | flushSuccess (count : Nat)
  | flushError (error : String) (count : Nat)
  | queueSize (size : Nat)
deriving DecidableEq, Repr

/-- JavaScript `response.ok`: status in the 2xx range. -/
def respOk : FetchOutcome → Bool
  | .resolved s => 200 ≤ s && s < 300
  | .rejected _ => false

/-- The `error.message` reaching the v1 worker's `catch`: the thrown
`HTTP <status>` for a settled non-ok response, or the rejection message. -/
def v1FlushErrMsg : FetchOutcome → String
  | .resolved s => "HTTP " ++ toString s
  | .rejected m => m

/-- Body of the v1 worker's combined batch request:
`JSON.stringify({ events: batch, batch: true })`. -/
def v1BatchBody (batch : List Payload) : String :=
  jsonStr (.vObj [("events", .vArr (batch.map JSValue.vObj)), ("batch", .vBool true)])

/-- `flushQueue` of the inline worker in src/transport/api-worker.js
(lines 115-139) and src/workers/event-worker.js (lines 75-114): when the
queue is non-empty and the worker is online, the whole batch is sent in
ONE combined POST request; on failure the entire batch is pushed back
and `FLUSH_ERROR` is reported with the batch count; on success
`FLUSH_SUCCESS` with the count.  Returns (queue after, messages posted,
requests issued). -/
def workerV1Flush (apiUrl token : String) (isOnline : Bool) (q : List Payload)
    (res : FetchOutcome) : List Payload × List WorkerMsg × List Request :=
  if q.isEmpty || !isOnline then (q, [], [])
  else
    let batch := q
    let req : Request := .post apiUrl token (v1BatchBody batch)
    if respOk res then
      ([], [.flushSuccess batch.length], [req])
    else
      (batch, [.flushError (v1FlushErrMsg res) batch.length], [req])

/-- Error raised for one per-event GET of the v2 worker, `none` on
success: the worker throws `HTTP <status>` unless the status is 202 or
200, and a rejected fetch propagates its own message. -/
def v2GetFail : FetchOutcome → Option String
  | .resolved s => if s == 202 || s == 200 then none else some ("HTTP " ++ toString s)
  | .rejected m => some m

/-- The per-event delivery loop of the v2 worker's `flushQueue` (dist
bundle / unnamed v2 transport source): one GET request per event, in
batch order; the loop is abandoned at the first failure.  `outs i` is
how the fetch of the i-th attempted request settles.  Returns the error
of the failed attempt (if any) and the requests issued. -/
def workerV2FlushLoop (apiUrl token : String) (batch : List Payload)
    (outs : Nat → FetchOutcome) (i : Nat) : Option String × List Request :=
  match batch with
  | [] => (none, [])
  | p :: rest =>
      let req := sendViaGetReq apiUrl token p
      match v2GetFail (outs i) with
      | none =>
          let res := workerV2FlushLoop apiUrl token rest outs (i + 1)
          (res.1, req :: res.2)
      | some m => (some m, [req])

/-- `flushQueue` of the v2 inline worker: snapshot and clear the batch,
send the events individually via GET; on any failure requeue the ENTIRE
original batch and report `FLUSH_ERROR` with its count, on full success
report `FLUSH_SUCCESS` with the count. -/
def workerV2Flush (apiUrl token : String) (isOnline : Bool) (q : List Payload)
    (outs : Nat → FetchOutcome) : List Payload × List WorkerMsg × List Request :=
  if q.isEmpty || !isOnline then (q, [], [])
  else
    let batch := q
    let res := workerV2FlushLoop apiUrl token batch outs 0
    match res.1 with
    | none => ([], [.flushSuccess batch.length], res.2)
    | some m => (batch, [.flushError m batch.length], res.2)

/-- Main-thread events that can touch an ApiWorkerTransport's local
`queueSize` counter: a `send(payload)` call, or a worker message being
handled. -/
inductive MainOp : Type
  | send (p : Payload)
  | msgInitSuccess
  | msgFlushSuccess (count : Nat)
  | msgFlushError (error : String) (count : Nat)
  | msgQueueSize (size : Nat)

/-- Effect of one main-thread event on `queueSize` in
src/transport/api-worker.js: `send` (lines 178-190) posts `TRACK_EVENT`
without touching the counter, and `handleWorkerMessage` (lines 144-164)
only logs on `FLUSH_SUCCESS`/`FLUSH_ERROR`; only a `QUEUE_SIZE` reply
assigns the counter. -/
def v1QueueSizeStep (q : Int) : MainOp → Int
  | .msgQueueSize n => (n : Int)
  | _ => q

/-- Effect of one main-thread event on `queueSize` in the v2
ApiWorkerTransport (dist bundle / unnamed v2 source, worker
initialized): `send` increments it, `FLUSH_SUCCESS` runs
`queueSize = Math.max(0, queueSize - count)`, a `QUEUE_SIZE` reply
assigns it, everything else leaves it alone. -/
def v2QueueSizeStep (q : Int) : MainOp → Int
  | .send _ => q + 1
  | .msgFlushSuccess n => max 0 (q - (n : Int))
  | .msgQueueSize n => (n : Int)
  | _ => q

/-- Number of `send()` calls in a sequence of main-thread events. -/
def sendsCount (ops : List MainOp) : Int :=
  (ops.map (fun op => match op with | .send _ => (1 : Int) | _ => 0)).sum

/-- Sum of the counts carried by `FLUSH_SUCCESS` messages in a sequence
of main-thread events. -/
def flushedCount (ops : List MainOp) : Int :=
  (ops.map (fun op => match op with | .msgFlushSuccess n => (n : Int) | _ => 0)).sum

/-- Is a main-thread event a `send()` call or a flush report? -/
def isSendOrReport : MainOp → Bool
  | .send _ => true
  | .msgFlushSuccess _ => true
  | .msgFlushError _ _ => true
  | _ => false

/-- Does one main-thread event avoid engaging the `Math.max(0, ...)`
clamp when the counter holds `q`? -/
def clampGuard (q : Int) : MainOp → Bool
  | .msgFlushSuccess n => decide ((n : Int) ≤ q)
  | _ => true

/-- Starting the v2 counter at `q`, does no `FLUSH_SUCCESS` of the
sequence ever report more events than the counter holds (so that the
`Math.max(0, ...)` clamp never engages)? -/
def clampFreeFrom (q : Int) : List MainOp → Bool
  | [] => true
  | op :: rest => clampGuard q op && clampFreeFrom (v2QueueSizeStep q op) rest

/-- The Session object (dist/carboncut.js lines 2488-2525): it holds
`sessionId`, which is `null` until `start()` stores a generated UUID. -/
structure SessionState : Type where
  sessionId : Option String

/-- `Session.isActive()`: `this.sessionId !== null`. -/
def sessionIsActive (s : SessionState) : Bool :=
  s.sessionId.isSome

/-- `Session.getId()` as a JavaScript value: the identifier string, or
`null` before `start()`. -/
def sessionGetIdJS (s : SessionState) : JSValue :=
  match s.sessionId with
  | some i => .vStr i
  | none => .vNull

/-- Template consumed by the `generateUUID` fallback. -/
def uuidTemplate : String := "xxxxxxxx-xxxx-4xxx-yxxx-xxxxxxxxxxxx"

/-- One step of the fallback's `replace(/[xy]/g, ...)` callback: an `x`
becomes a random hex digit `r` (`Math.random()*16|0`, modelled as
`rand k % 16` for the k-th draw), a `y` becomes `(r & 0x3 | 0x8)` in
hex, every other template character is copied. -/
def uuidStep (rand : Nat → Nat) (acc : String × Nat) (c : Char) : String × Nat :=
  if c = 'x' then (acc.1.push (hexDigitChar (rand acc.2 % 16)), acc.2 + 1)
  else if c = 'y' then
    (acc.1.push (hexDigitChar (((rand acc.2 % 16) &&& 3) ||| 8)), acc.2 + 1)
  else (acc.1.push c, acc.2)

/-- The template-replacement fallback of `generateUUID`. -/
def uuidFallback (rand : Nat → Nat) : String :=
  (uuidTemplate.toList.foldl (uuidStep rand) ("", 0)).1

/-- `generateUUID` (dist/carboncut.js lines 157-168): `crypto.randomUUID()`
when the platform provides it (`cryptoUUID` is its result then),
otherwise the template replacement driven by `Math.random`. -/
def generateUUID (cryptoUUID : Option String) (rand : Nat → Nat) : String :=
  match cryptoUUID with
  | some u => u
  | none => uuidFallback rand

/-- `Session.start()`: generate a fresh identifier and become active. -/
def sessionStart (cryptoUUID : Option String) (rand : Nat → Nat) : SessionState :=
  ⟨some (generateUUID cryptoUUID rand)⟩

/-- The v2 `eventTypeMapping` (src/tracking/event.js lines 369-381,
identical in the dist bundle): `session_start` maps to its own wire
type; unknown names default to `click`. -/
def eventTypeMappingV2 (event : String) : String :=
  if event == "session_start" then "session_start"
  else if event == "page_view" then "page_view"
  else if event == "ping" then "page_view"
  else if event == "custom_event" then "click"
  else if event == "session_end" then "conversion"
  else if event == "button_click" then "click"
  else if event == "form_submit" then "conversion"
  else if event == "conversion" then "conversion"
  else "click"

/-- JavaScript truthiness of the payload values we model. -/
def jsTruthy : JSValue → Bool
  | .vUndefined => false
  | .vNull => false
  | .vBool b => b
  | .vNum n => !(n == 0)
  | .vStr s => !(s == "")
  | .vArr _ => true
  | .vObj _ => true

/-- Assignment `obj.k = v` / object-spread overwrite: an existing field
keeps its position and gets the new value, a new field is appended. -/
def objSet (fields : Payload) (k : String) (v : JSValue) : Payload :=
  if fields.any (fun kv => kv.1 == k) then
    fields.map (fun kv => if kv.1 == k then (kv.1, v) else kv)
  else fields ++ [(k, v)]

/-- Object spread `{ ...base, ...extra }`: the fields of `extra` merged
into `base` left to right. -/
def objMerge (base extra : Payload) : Payload :=
  extra.foldl (fun acc kv => objSet acc kv.1 kv.2) base

/-- UTF-8 byte length of a string: the `Blob([jsonString]).size` used by
`estimateRequestSize`. -/
def utf8Length (s : String) : Nat :=
  (s.toList.map (fun c => (utf8Bytes c).length)).sum

/-- The fields spread into the payload when geolocation data is present:
`{ geolocation, latitude, longitude, location_accuracy }`. -/
def geoSpread (g : Payload) : Payload :=
  [("geolocation", .vObj g), ("latitude", getProp g "latitude"),
    ("longitude", getProp g "longitude"), ("location_accuracy", getProp g "accuracy")]

/-- Per-call platform environment of a v2 `EventTracker.send` call:
clock readings, the generated event id, page context, the performance
enrichment object, and the settled geolocation lookup (`none` when
disabled, failed, or timed out). -/
structure TrackerEnv : Type where
  now : Nat
  isoTimestamp : String
  eventId : String
  pageUrl : String
  referrer : String
  perfData : Payload
  geo : Option Payload

/-- Payload construction of the v2 `EventTracker.send` (src/tracking/
event.js lines 423-453): the base object literal, then the performance
spread, the conditional geolocation spread (only attempted for
`session_start` and `conversion` events), the caller-data spread
(caller data wins), and finally the two `trackingRequest*` size
assignments. -/
def buildPayloadV2 (token : String) (sess : SessionState) (utm : JSValue)
    (env : TrackerEnv) (event : String) (data : Payload) : Payload :=
  let mapped := eventTypeMappingV2 event
  let userId :=
    if jsTruthy (getProp data "user_id") then getProp data "user_id"
    else sessionGetIdJS sess
  let base : Payload :=
    [("event", .vStr mapped),
      ("session_id", sessionGetIdJS sess),
      ("timestamp", .vStr env.isoTimestamp),
      ("tracker_token", .vStr token),
      ("utm_params", utm),
      ("event_id", .vStr env.eventId),
      ("user_id", userId),
      ("page_url", .vStr env.pageUrl),
      ("referrer", .vStr env.referrer)]
  let geoData := if event == "session_start" || event == "conversion" then env.geo else none
  let withPerf := objMerge base env.perfData
  let withGeo :=
    match geoData with
    | some g => objMerge withPerf (geoSpread g)
    | none => withPerf
  let merged := objMerge withGeo data
  let bodyBytes := utf8Length (jsonStr (.vObj merged))
  let p1 := objSet merged "trackingRequestBytes" (.vNum ((bodyBytes : Int) + 850))
  objSet p1 "trackingRequestBody" (.vNum (bodyBytes : Int))

/-- The dedup key of `EventTracker.send`:
`` `${event}_${payload.timestamp}_${JSON.stringify(data)}` ``. -/
def dedupKey (event : String) (iso : String) (data : Payload) : String :=
  event ++ "_" ++ iso ++ "_" ++ jsonStr (.vObj data)

/-- State of the dedup registry: each registered key with its
registration time; deletion is scheduled 2000ms after registration. -/
abbrev DedupRegistry := List (String × Nat)

/-- Firing of the pending `setTimeout(() => sentEvents.delete(key), 2000)`
timers up to the given instant: an entry registered at `r` survives
while `now < r + 2000`. -/
def expireDedup (now : Nat) (reg : DedupRegistry) : DedupRegistry :=
  reg.filter (fun kv => decide (now < kv.2 + 2000))

/-- `sentEvents.has(key)`. -/
def hasDedupKey (reg : DedupRegistry) (k : String) : Bool :=
  reg.any (fun kv => kv.1 == k)

/-- Observable outcome of one v2 `EventTracker.send` call: the dedup
registry afterwards, the payload handed to `transport.send` (if any),
and the local error/warning log entries. -/
structure TrackerResult : Type where
  registry : DedupRegistry
  sent : Option Payload
  logs : List String

/-- The v2 `EventTracker.send` (src/tracking/event.js lines 363-494,
identical in the dist bundle): no-op with a local error when no session
is active; otherwise the payload is built, a duplicate dedup key drops
the event with a warning, and a fresh key is registered (expiring 2000ms
later) before the payload is handed to the transport. -/
def trackerSendV2 (token : String) (sess : SessionState) (utm : JSValue)
    (env : TrackerEnv) (reg : DedupRegistry) (event : String) (data : Payload) :
    TrackerResult :=
  if !(sessionIsActive sess) then
    ⟨reg, none, ["Cannot send event without active session"]⟩
  else
    let payload := buildPayloadV2 token sess utm env event data
    let key := dedupKey event env.isoTimestamp data
    let reg0 := expireDedup env.now reg
    if hasDedupKey reg0 key then
      ⟨reg0, none, ["Duplicate event prevented"]⟩
    else
      ⟨(key, env.now) :: reg0, some payload, []⟩

/-- A conversion rule as fetched from the configuration endpoint.  The
JSON fields `id` and `name` are carried opaquely; `type` and
`match_type` drive the evaluation. -/
structure ConversionRule : Type where
  rid : JSValue
  rtype : String
  matchType : String
  pattern : String
  rname : JSValue

/-- Does a character list start with the given needle? -/
def charsStartWith : List Char → List Char → Bool
  | _, [] => true
  | [], _ :: _ => false
  | h :: hs, n :: ns => h == n && charsStartWith hs ns

/-- Does a character list contain the needle as a contiguous run? -/
def charsContain (needle : List Char) : List Char → Bool
  | [] => needle.isEmpty
  | h :: t => charsStartWith (h :: t) needle || charsContain needle t

/-- JavaScript `String.prototype.includes`: substring containment. -/
def substrContains (s pat : String) : Bool :=
  charsContain pat.toList s.toList

/-- The `switch (rule.match_type)` of `checkUrlConversions`
(src/tracking/event.js lines 561-585): each match type tests the full
URL or the path against the pattern.  `regexTest pat s` is the oracle
for `new RegExp(pat).test(s)`; for an invalid pattern the code catches
the constructor error and leaves `matched` false, which the oracle
models by returning false. -/
def urlRuleMatched (regexTest : String → String → Bool) (url path : String)
    (r : ConversionRule) : Bool :=
  if r.matchType == "contains" then substrContains url r.pattern || substrContains path r.pattern
  else if r.matchType == "exact" then url == r.pattern || path == r.pattern
  else if r.matchType == "starts_with" then url.startsWith r.pattern || path.startsWith r.pattern
  else if r.matchType == "ends_with" then url.endsWith r.pattern || path.endsWith r.pattern
  else if r.matchType == "regex" then regexTest r.pattern url || regexTest r.pattern path
  else false

/-- The data object passed to `send('conversion', ...)` when a URL rule
matches. -/
def conversionData (url : String) (r : ConversionRule) : Payload :=
  [("conversion_type", .vStr "url"),
    ("conversion_label", r.rname),
    ("conversion_url", .vStr url),
    ("conversion_rule_id", r.rid),
    ("match_type", .vStr r.matchType),
    ("pattern", .vStr r.pattern)]

/-- `EventTracker.checkUrlConversions` (src/tracking/event.js lines
546-599): filter the URL-type rules and, for each rule matching the
current URL/path, synthesize one conversion event.  The returned list
holds, in rule order, the data object of each synthesized conversion. -/
def checkUrlConversions (regexTest : String → String → Bool)
    (rules : List ConversionRule) (url path : String) : List Payload :=
  let urlRules := rules.filter (fun r => r.rtype == "url")
  if urlRules.isEmpty then []
  else
    urlRules.filterMap (fun r =>
      if urlRuleMatched regexTest url path r then some (conversionData url r) else none)

/-- Is a payload field value a nonempty string? -/
def jsStrNonempty : JSValue → Bool
  | .vStr s => !(s == "")
  | _ => false

/-- Concrete sample payloads used by the concrete-input theorems. -/
def pageViewPayload : Payload := [("event", JSValue.vStr "page_view")]

/-- A second concrete sample payload. -/
def clickPayload : Payload := [("event", JSValue.vStr "click")]

/-- A network environment whose fetch resolves with HTTP 200 and has no
beacon facility. -/
def envOk : SendEnv := ⟨false, false, .resolved 200⟩

/-- A network environment whose fetch rejects. -/
def envFail : SendEnv := ⟨false, false, .rejected "Failed to fetch"⟩

/-- While offline, the flush loop issues no network requests: every
`send` it performs takes the offline early return. -/
theorem flushLoop_offline_no_requests (u t : String) :
    ∀ (work : List (Payload × SendEnv)) (q0 : List Payload),
      (flushLoop u t false work q0).2 = [] := by
  intro work
  induction work with
  | nil => intro q0; rfl
  | cons pe rest ih =>
      intro q0
      obtain ⟨p, e⟩ := pe
      simpa [flushLoop, transportSend] using ih (q0 ++ [p] ++ [p])

/-- C4: a payload passed to Direct Mode's `send` while the online flag
is false is appended to the queue, the call returns failure, and no
network request is attempted — not even by a flush performed while
still offline. -/
theorem c4_send_offline_queues_and_no_request (u t : String) (q : List Payload)
    (env : SendEnv) (p : Payload) :
    transportSend u t false q env p = ⟨false, q ++ [p], []⟩ ∧
    ∀ envs, (transportFlushQueue u t false envs q).2 = [] := by
  refine ⟨rfl, fun envs => ?_⟩
  unfold transportFlushQueue
  split
  · rfl
  · exact flushLoop_offline_no_requests u t (q.zip envs) []

/-- C9: a v2 `EventTracker.send` call without an active session is a
no-op that logs a local error: nothing is handed to the transport and
the dedup registry is untouched. -/
theorem c9_send_without_session_noop (token : String) (sess : SessionState)
    (utm : JSValue) (env : TrackerEnv) (reg : DedupRegistry) (event : String)
    (data : Payload) (h : sessionIsActive sess = false) :
    trackerSendV2 token sess utm env reg event data =
      ⟨reg, none, ["Cannot send event without active session"]⟩ := by
  unfold trackerSendV2
  rw [h]
  rfl

/-- Witness for C9 at a concrete inactive session. -/
theorem c9_witness :
    trackerSendV2 "abc123" ⟨none⟩ JSValue.vNull ⟨0, "ts", "ev1", "u", "", [], none⟩
        [] "page_view" [] =
      ⟨[], none, ["Cannot send event without active session"]⟩ :=
  c9_send_without_session_noop "abc123" ⟨none⟩ JSValue.vNull
    ⟨0, "ts", "ev1", "u", "", [], none⟩ [] "page_view" [] rfl

/-- C1 (bug evidence): flushing the two-element Direct Mode queue
`[pageViewPayload, clickPayload]` online, where the first delivery
succeeds (HTTP 200) and the second fetch rejects, leaves the failed
payload in the queue TWICE — once pushed by `send`'s catch block and
once more by `flushQueue`'s own `!success` push — so the queue ends
with 2 entries where the specification's property demands exactly
N − M = 1. -/
theorem c1_flush_requeues_failed_twice :
    (transportFlushQueue "https://collect.example/api/v1/events/" "abc123" true
        [envOk, envFail] [pageViewPayload, clickPayload]).1 =
      [clickPayload, clickPayload] ∧
    ((transportFlushQueue "https://collect.example/api/v1/events/" "abc123" true
        [envOk, envFail] [pageViewPayload, clickPayload]).1).length ≠ 1 := by
  exact ⟨rfl, by decide⟩

/-- C2 (counterexample): the worker built inline by
src/transport/api-worker.js (and src/workers/event-worker.js) flushes a
two-event batch with exactly ONE combined POST request whose JSON body
carries the whole batch — not one individual GET request per event. -/
theorem c2_workerV1_single_batch_post :
    (workerV1Flush "https://collect.example/api/v1/events/" "abc123" true
        [pageViewPayload, clickPayload] (.resolved 200)).2.2 =
      [Request.post "https://collect.example/api/v1/events/" "abc123"
        (v1BatchBody [pageViewPayload, clickPayload])] ∧
    ((workerV1Flush "https://collect.example/api/v1/events/" "abc123" true
        [pageViewPayload, clickPayload] (.resolved 200)).2.2).length ≠
      [pageViewPayload, clickPayload].length ∧
    ((workerV1Flush "https://collect.example/api/v1/events/" "abc123" true
        [pageViewPayload, clickPayload] (.resolved 200)).2.2).all
      (fun r => !r.isGet) = true := by
  exact ⟨rfl, by decide, rfl⟩

/-- C3: a failing background-mode batch flush restores the entire
original batch and reports `FLUSH_ERROR` with the batch count and the
error message — in the v1 worker (combined POST, any non-ok response or
rejection) and in the v2 worker (per-event GETs, first failure aborts
the loop) alike. -/
theorem c3_worker_flush_failure_restores_batch (u t : String) (q : List Payload)
    (res : FetchOutcome) (outs : Nat → FetchOutcome) (m : String)
    (reqs : List Request) (hq : q ≠ []) :
    (respOk res = false →
      (workerV1Flush u t true q res).1 = q ∧
      (workerV1Flush u t true q res).2.1 =
        [WorkerMsg.flushError (v1FlushErrMsg res) q.length]) ∧
    (workerV2FlushLoop u t q outs 0 = (some m, reqs) →
      (workerV2Flush u t true q outs).1 = q ∧
      (workerV2Flush u t true q outs).2.1 = [WorkerMsg.flushError m q.length]) := by
  have hq' : q.isEmpty = false := by
    cases q with
    | nil => exact absurd rfl hq
    | cons a l => rfl
  constructor
  · intro hres
    simp [workerV1Flush, hq', hres]
  · intro hloop
    simp [workerV2Flush, hq', hloop]

/-- Witness for C3 at a concrete one-event batch whose fetch rejects. -/
theorem c3_witness :
    (workerV1Flush "https://collect.example/api/v1/events/" "abc123" true
        [pageViewPayload] (.rejected "boom")).1 = [pageViewPayload] ∧
    (workerV1Flush "https://collect.example/api/v1/events/" "abc123" true
        [pageViewPayload] (.rejected "boom")).2.1 = [WorkerMsg.flushError "boom" 1] ∧
    (workerV2Flush "https://collect.example/api/v1/events/" "abc123" true
        [pageViewPayload] (fun _ => .rejected "boom")).1 = [pageViewPayload] ∧
    (workerV2Flush "https://collect.example/api/v1/events/" "abc123" true
        [pageViewPayload] (fun _ => .rejected "boom")).2.1 =
      [WorkerMsg.flushError "boom" 1] := by
  have h := c3_worker_flush_failure_restores_batch
    "https://collect.example/api/v1/events/" "abc123" [pageViewPayload]
    (.rejected "boom") (fun _ => .rejected "boom") "boom"
    [sendViaGetReq "https://collect.example/api/v1/events/" "abc123" pageViewPayload]
    (List.cons_ne_nil _ _)
  have ha := h.1 rfl
  have hb := h.2 rfl
  exact ⟨ha.1, ha.2, hb.1, hb.2⟩

/-- C7 (counterexample): in src/transport/api-worker.js a single
`send()` leaves the local `queueSize` counter at 0, while the claimed
bookkeeping (sends minus `FLUSH_SUCCESS` counts) predicts 1. -/
theorem c7_v1_queueSize_untouched :
    List.foldl v1QueueSizeStep 0 [MainOp.send pageViewPayload] = 0 ∧
    sendsCount [MainOp.send pageViewPayload] -
      flushedCount [MainOp.send pageViewPayload] = 1 ∧
    (0 : Int) ≠ 1 := by
  exact ⟨rfl, by decide, by decide⟩

/-- Folding the v2 `queueSize` update from any start value: as long as
every event is a send or a flush report and no `FLUSH_SUCCESS` ever
reports more than the counter holds, the counter tracks start + sends −
flushed exactly. -/
theorem v2_foldl_queueSize (ops : List MainOp) :
    ∀ q0 : Int, ops.all isSendOrReport = true → clampFreeFrom q0 ops = true →
      List.foldl v2QueueSizeStep q0 ops = q0 + sendsCount ops - flushedCount ops := by
  induction ops with
  | nil =>
      intro q0 _ _
      simp [sendsCount, flushedCount]
  | cons op rest ih =>
      intro q0 hall hcf
      rw [List.all_cons, Bool.and_eq_true] at hall
      cases op with
      | send p =>
          rw [clampFreeFrom] at hcf
          simp only [clampGuard, Bool.true_and] at hcf
          have h := ih (q0 + 1) hall.2 (by simpa [v2QueueSizeStep] using hcf)
          simp only [List.foldl_cons, v2QueueSizeStep]
          rw [h]
          simp [sendsCount, flushedCount]
          ring
      | msgFlushSuccess n =>
          rw [clampFreeFrom, Bool.and_eq_true] at hcf
          have hn : (n : Int) ≤ q0 := by
            have := hcf.1
            simpa [clampGuard] using this
          have hmax : max 0 (q0 - (n : Int)) = q0 - (n : Int) :=
            max_eq_right (by omega)
          have h := ih (q0 - (n : Int)) hall.2
            (by simpa [v2QueueSizeStep, hmax] using hcf.2)
          simp only [List.foldl_cons, v2QueueSizeStep]
          rw [hmax, h]
          simp [sendsCount, flushedCount]
          ring
      | msgFlushError e n =>
          rw [clampFreeFrom] at hcf
          simp only [clampGuard, Bool.true_and] at hcf
          have h := ih q0 hall.2 (by simpa [v2QueueSizeStep] using hcf)
          simp only [List.foldl_cons, v2QueueSizeStep]
          rw [h]
          simp [sendsCount, flushedCount]
      | msgInitSuccess =>
          exact absurd hall.1 (by simp [isSendOrReport])
      | msgQueueSize n =>
          exact absurd hall.1 (by simp [isSendOrReport])

/-- C7 (amended): in the v2 ApiWorkerTransport the local `queueSize`
counter — incremented on each `send()`, decremented by each
`FLUSH_SUCCESS` count through `Math.max(0, ...)` — equals (number of
sends) − (sum of `FLUSH_SUCCESS` counts) after any sequence of sends
and flush reports in which the clamp never engages. -/
theorem c7_v2_queueSize_counts (ops : List MainOp)
    (hall : ops.all isSendOrReport = true) (hcf : clampFreeFrom 0 ops = true) :
    List.foldl v2QueueSizeStep 0 ops = sendsCount ops - flushedCount ops := by
  have h := v2_foldl_queueSize ops 0 hall hcf
  simpa using h

/-- Witness for C7's amended statement: two sends followed by a
`FLUSH_SUCCESS` of one event leave the counter at 1. -/
theorem c7_v2_witness :
    List.foldl v2QueueSizeStep 0
      [MainOp.send pageViewPayload, MainOp.send clickPayload,
        MainOp.msgFlushSuccess 1] = 1 := by
  have h := c7_v2_queueSize_counts
    [MainOp.send pageViewPayload, MainOp.send clickPayload, MainOp.msgFlushSuccess 1]
    (by decide) (by decide)
  exact h.trans (by decide)

/-- When every per-event GET of the v2 worker succeeds, the delivery
loop walks the whole batch and issues exactly one GET request per
event, in batch order. -/
theorem workerV2FlushLoop_all_ok (u t : String) :
    ∀ (batch : List Payload) (outs : Nat → FetchOutcome) (i : Nat),
      (∀ j, j < batch.length → v2GetFail (outs (i + j)) = none) →
      workerV2FlushLoop u t batch outs i = (none, batch.map (sendViaGetReq u t)) := by
  intro batch
  induction batch with
  | nil => intro outs i _; rfl
  | cons p rest ih =>
      intro outs i hok
      have h0 : v2GetFail (outs i) = none := by
        have := hok 0 (by simp)
        simpa using this
      have hrec := ih outs (i + 1) (fun j hj => by
        have hlt : j + 1 < (p :: rest).length := by
          simpa using Nat.succ_lt_succ hj
        have := hok (j + 1) hlt
        have harith : i + (j + 1) = i + 1 + j := by omega
        rw [harith] at this
        exact this)
      simp [workerV2FlushLoop, h0, hrec]

/-- Every request the v2 worker's delivery loop issues — whether or not
the flush eventually fails — is an individual GET request. -/
theorem workerV2FlushLoop_requests_get (u t : String) :
    ∀ (batch : List Payload) (outs : Nat → FetchOutcome) (i : Nat),
      ((workerV2FlushLoop u t batch outs i).2).all Request.isGet = true := by
  intro batch
  induction batch with
  | nil => intro outs i; rfl
  | cons p rest ih =>
      intro outs i
      cases hv : v2GetFail (outs i) with
      | none => simp [workerV2FlushLoop, hv, ih outs (i + 1), sendViaGetReq, Request.isGet]
      | some m => simp [workerV2FlushLoop, hv, sendViaGetReq, Request.isGet]

/-- C2 (amended): the v2 background worker (dist bundle / unnamed v2
transport source) flushes a non-empty online batch by issuing one
individual GET-style query-string request per event — exactly one per
event when every request succeeds — and never issues a combined batch
request: every request it ever issues is an individual GET. -/
theorem c2_workerV2_per_event_get (u t : String) (batch : List Payload)
    (outs : Nat → FetchOutcome) (hne : batch ≠ [])
    (hok : ∀ j, j < batch.length → v2GetFail (outs j) = none) :
    (workerV2Flush u t true batch outs).2.2 = batch.map (sendViaGetReq u t) ∧
    ((workerV2Flush u t true batch outs).2.2).all Request.isGet = true ∧
    ∀ outs2, ((workerV2Flush u t true batch outs2).2.2).all Request.isGet = true := by
  have hq' : batch.isEmpty = false := by
    cases batch with
    | nil => exact absurd rfl hne
    | cons a l => rfl
  have hloop := workerV2FlushLoop_all_ok u t batch outs 0 (fun j hj => by
    have := hok j hj
    simpa using this)
  refine ⟨?_, ?_, ?_⟩
  · simp [workerV2Flush, hq', hloop]
  · have h1 : (workerV2Flush u t true batch outs).2.2 = batch.map (sendViaGetReq u t) := by
      simp [workerV2Flush, hq', hloop]
    rw [h1, List.all_eq_true]
    intro r hr
    rw [List.mem_map] at hr
    obtain ⟨a, _, rfl⟩ := hr
    rfl
  · intro outs2
    have hall := workerV2FlushLoop_requests_get u t batch outs2 0
    unfold workerV2Flush
    rw [hq']
    simp only [Bool.false_or]
    cases hres : (workerV2FlushLoop u t batch outs2 0).1 with
    | none => simpa [hres] using hall
    | some m => simpa [hres] using hall

/-- Witness for C2's amended statement: a concrete one-event batch
whose GET resolves with HTTP 202. -/
theorem c2_witness :
    (workerV2Flush "https://collect.example/api/v1/events/" "abc123" true
        [pageViewPayload] (fun _ => .resolved 202)).2.2 =
      [sendViaGetReq "https://collect.example/api/v1/events/" "abc123" pageViewPayload] ∧
    ((workerV2Flush "https://collect.example/api/v1/events/" "abc123" true
        [pageViewPayload] (fun _ => .resolved 202)).2.2).all Request.isGet = true := by
  have h := c2_workerV2_per_event_get "https://collect.example/api/v1/events/"
    "abc123" [pageViewPayload] (fun _ => .resolved 202)
    (List.cons_ne_nil _ _) (fun j _ => rfl)
  exact ⟨h.1, h.2.1⟩

/-- C8: for a URL-type conversion rule with match type `exact` and
pattern `/thank-you`, `checkUrlConversions` synthesizes a conversion
event exactly when the current path is the string `/thank-you` — the
full URL comparison of the source can never fire because
`window.location.href` always carries a scheme, so it never equals a
path pattern.  In particular `/thank-you/` (and any path differing from
the pattern) fires nothing. -/
theorem c8_url_exact_rule (regexTest : String → String → Bool) (url path : String)
    (rid rname : JSValue) (h : charsStartWith url.toList "http".toList = true) :
    checkUrlConversions regexTest [⟨rid, "url", "exact", "/thank-you", rname⟩] url path =
      (if path = "/thank-you" then
        [conversionData url ⟨rid, "url", "exact", "/thank-you", rname⟩] else []) := by
  have hurl : url ≠ "/thank-you" := by
    intro he
    rw [he] at h
    exact absurd h (by decide)
  have hbe : (url == "/thank-you") = false := beq_eq_false_iff_ne.mpr hurl
  by_cases hp : path = "/thank-you"
  · subst hp
    simp [checkUrlConversions, urlRuleMatched, hbe]
  · have hpb : (path == "/thank-you") = false := beq_eq_false_iff_ne.mpr hp
    simp [checkUrlConversions, urlRuleMatched, hbe, hpb, hp, hurl]

/-- Witness for C8 at a concrete scheme-carrying URL whose path matches
exactly. -/
theorem c8_witness :
    checkUrlConversions (fun _ _ => false)
        [⟨.vNull, "url", "exact", "/thank-you", .vNull⟩]
        "https://shop.example/thank-you" "/thank-you" =
      [conversionData "https://shop.example/thank-you"
        ⟨.vNull, "url", "exact", "/thank-you", .vNull⟩] := by
  have h := c8_url_exact_rule (fun _ _ => false) "https://shop.example/thank-you"
    "/thank-you" .vNull .vNull (by decide)
  exact h.trans (if_pos rfl)

/-- One loop iteration of `buildQueryString` appends exactly the
claim-side entry of the processed field. -/
theorem qsStep_eq (params : List (String × String)) (kv : String × JSValue) :
    qsStep params kv = params ++ (specQsEntry kv).toList := by
  obtain ⟨k, v⟩ := kv
  cases v <;> simp [qsStep, specQsEntry]

/-- The fold of `buildQueryString` from any accumulator is that
accumulator followed by the claim-side entries. -/
theorem qsFold_eq (payload : Payload) :
    ∀ acc : List (String × String),
      payload.foldl qsStep acc = acc ++ payload.filterMap specQsEntry := by
  induction payload with
  | nil => intro acc; simp
  | cons kv rest ih =>
      intro acc
      rw [List.foldl_cons, ih, qsStep_eq]
      cases h : specQsEntry kv <;> simp [List.filterMap_cons, h]

/-- The parameter list of `buildQueryString` is exactly the claim-side
entry of each payload field, in payload order. -/
theorem buildQueryStringParams_eq (payload : Payload) :
    buildQueryStringParams payload = payload.filterMap specQsEntry := by
  simpa [buildQueryStringParams] using qsFold_eq payload []

/-- The parameter keys of `buildQueryString` are the payload keys whose
values are neither null nor undefined, in order. -/
theorem buildQueryStringParams_keys (payload : Payload) :
    (buildQueryStringParams payload).map Prod.fst =
      (payload.filter (fun kv => !(isNullOrUndef kv.2))).map Prod.fst := by
  rw [buildQueryStringParams_eq]
  induction payload with
  | nil => rfl
  | cons kv rest ih =>
      obtain ⟨k, v⟩ := kv
      cases v <;>
        simp [List.filterMap_cons, List.filter_cons, specQsEntry, isNullOrUndef, ih]

/-- C10: `buildQueryString` is a total function of the payload that
omits exactly the null/undefined-valued keys; each surviving key
contributes one parameter (appearing exactly once when the payload keys
are distinct, as `Object.entries` guarantees), with object and array
values JSON-stringified into the single parameter value and all other
values converted with `String` — the claim-side `specQsEntry`. -/
theorem c10_buildQueryString_spec (payload : Payload)
    (hnd : (payload.map Prod.fst).Nodup) :
    buildQueryStringParams payload = payload.filterMap specQsEntry ∧
    (buildQueryStringParams payload).map Prod.fst =
      (payload.filter (fun kv => !(isNullOrUndef kv.2))).map Prod.fst ∧
    (∀ k, k ∈ (buildQueryStringParams payload).map Prod.fst →
      ((buildQueryStringParams payload).map Prod.fst).count k = 1) ∧
    buildQueryString payload = renderParams (payload.filterMap specQsEntry) := by
  have hsub : ((payload.filter (fun kv => !(isNullOrUndef kv.2))).map Prod.fst).Sublist
      (payload.map Prod.fst) := (List.filter_sublist _).map _
  have hnd2 : ((buildQueryStringParams payload).map Prod.fst).Nodup := by
    rw [buildQueryStringParams_keys]
    exact hnd.sublist hsub
  refine ⟨buildQueryStringParams_eq payload, buildQueryStringParams_keys payload,
    fun k hk => List.count_eq_one_of_mem hnd2 hk, ?_⟩
  rw [buildQueryString, buildQueryStringParams_eq]

/-- Witness for C10 at a concrete payload mixing a null, a string, an
object and an undefined value. -/
theorem c10_witness :
    buildQueryStringParams
        [("a", .vNull), ("b", .vStr "x"),
          ("c", .vObj [("d", .vNum 1)]), ("e", .vUndefined)] =
      [("a", JSValue.vNull), ("b", JSValue.vStr "x"),
        ("c", JSValue.vObj [("d", JSValue.vNum 1)]),
        ("e", JSValue.vUndefined)].filterMap specQsEntry ∧
    (buildQueryStringParams
        [("a", .vNull), ("b", .vStr "x"),
          ("c", .vObj [("d", .vNum 1)]), ("e", .vUndefined)]).map Prod.fst =
      ([("a", JSValue.vNull), ("b", JSValue.vStr "x"),
        ("c", JSValue.vObj [("d", JSValue.vNum 1)]),
        ("e", JSValue.vUndefined)].filter
          (fun kv => !(isNullOrUndef kv.2))).map Prod.fst ∧
    ((buildQueryStringParams
        [("a", .vNull), ("b", .vStr "x"),
          ("c", .vObj [("d", .vNum 1)]), ("e", .vUndefined)]).map Prod.fst).count
      "b" = 1 := by
  have h := c10_buildQueryString_spec
    [("a", .vNull), ("b", .vStr "x"), ("c", .vObj [("d", .vNum 1)]), ("e", .vUndefined)]
    (by decide)
  exact ⟨h.1, h.2.1, h.2.2.1 "b" (by decide)⟩

/-- Timer firing preserves the absence of a dedup key. -/
theorem hasDedupKey_expire_false (now : Nat) (reg : DedupRegistry) (k : String)
    (h : hasDedupKey reg k = false) :
    hasDedupKey (expireDedup now reg) k = false := by
  rw [hasDedupKey, List.any_eq_false] at h ⊢
  intro kv hkv
  exact h kv (List.mem_of_mem_filter hkv)

/-- Once its 2000ms deadline has passed, a registered dedup entry is
expired, and the key is absent provided the rest of the registry does
not hold it. -/
theorem hasDedupKey_expire_cons (t : Nat) (k : String) (r : Nat) (R : DedupRegistry)
    (hdead : ¬ t < r + 2000) (hR : hasDedupKey R k = false) :
    hasDedupKey (expireDedup t ((k, r) :: R)) k = false := by
  rw [expireDedup, List.filter_cons]
  rw [if_neg (by simpa using hdead)]
  exact hasDedupKey_expire_false t R k hR

/-- C5: two v2 `EventTracker.send` calls with the same event name, the
same ISO timestamp and the same data, the second strictly within 2000ms
of the first, hand exactly one payload to the transport: the first call
registers the dedup key and sends, the second is dropped; and the
registered entry is gone once 2000ms have elapsed since registration. -/
theorem c5_dedup_window (token : String) (sess : SessionState) (utm : JSValue)
    (env1 env2 : TrackerEnv) (reg : DedupRegistry) (event : String) (data : Payload)
    (hact : sessionIsActive sess = true)
    (hts : env2.isoTimestamp = env1.isoTimestamp)
    (hwin : env2.now < env1.now + 2000)
    (hfresh : hasDedupKey (expireDedup env1.now reg)
      (dedupKey event env1.isoTimestamp data) = false) :
    (trackerSendV2 token sess utm env1 reg event data).sent.isSome = true ∧
    (trackerSendV2 token sess utm env2
        (trackerSendV2 token sess utm env1 reg event data).registry event data).sent =
      none ∧
    hasDedupKey
      (expireDedup (env1.now + 2000)
        (trackerSendV2 token sess utm env2
          (trackerSendV2 token sess utm env1 reg event data).registry
          event data).registry)
      (dedupKey event env1.isoTimestamp data) = false := by
  have hr1 : trackerSendV2 token sess utm env1 reg event data =
      ⟨(dedupKey event env1.isoTimestamp data, env1.now) :: expireDedup env1.now reg,
        some (buildPayloadV2 token sess utm env1 event data), []⟩ := by
    unfold trackerSendV2
    rw [hact]
    simp [hfresh]
  have hexp2 : expireDedup env2.now
      ((dedupKey event env1.isoTimestamp data, env1.now) :: expireDedup env1.now reg) =
      (dedupKey event env1.isoTimestamp data, env1.now) ::
        expireDedup env2.now (expireDedup env1.now reg) := by
    rw [expireDedup, List.filter_cons]
    simp [expireDedup, hwin]
  have hin : hasDedupKey
      (expireDedup env2.now
        ((dedupKey event env1.isoTimestamp data, env1.now) :: expireDedup env1.now reg))
      (dedupKey event env2.isoTimestamp data) = true := by
    rw [hexp2, hts, hasDedupKey]
    simp
  have hr2 : trackerSendV2 token sess utm env2
      ((dedupKey event env1.isoTimestamp data, env1.now) :: expireDedup env1.now reg)
      event data =
      ⟨expireDedup env2.now
          ((dedupKey event env1.isoTimestamp data, env1.now) :: expireDedup env1.now reg),
        none, ["Duplicate event prevented"]⟩ := by
    unfold trackerSendV2
    rw [hact]
    simp only [Bool.not_true, if_false, Bool.false_eq_true]
    rw [if_pos hin]
  refine ⟨?_, ?_, ?_⟩
  · rw [hr1]
    rfl
  · rw [hr1]
    show (trackerSendV2 token sess utm env2
        ((dedupKey event env1.isoTimestamp data, env1.now) :: expireDedup env1.now reg)
        event data).sent = none
    rw [hr2]
  · rw [hr1]
    show hasDedupKey
        (expireDedup (env1.now + 2000)
          (trackerSendV2 token sess utm env2
            ((dedupKey event env1.isoTimestamp data, env1.now) ::
              expireDedup env1.now reg) event data).registry)
        (dedupKey event env1.isoTimestamp data) = false
    rw [hr2]
    show hasDedupKey
        (expireDedup (env1.now + 2000)
          (expireDedup env2.now
            ((dedupKey event env1.isoTimestamp data, env1.now) ::
              expireDedup env1.now reg)))
        (dedupKey event env1.isoTimestamp data) = false
    rw [hexp2]
    exact hasDedupKey_expire_cons _ _ _ _ (by omega)
      (hasDedupKey_expire_false _ _ _ hfresh)

/-- Witness for C5 at concrete times 1000ms and 2500ms. -/
theorem c5_witness :
    (trackerSendV2 "abc123" ⟨some "sid"⟩ JSValue.vNull
        ⟨1000, "2025-01-01T00:00:00.000Z", "ev1", "u", "", [], none⟩ []
        "page_view" []).sent.isSome = true ∧
    (trackerSendV2 "abc123" ⟨some "sid"⟩ JSValue.vNull
        ⟨2500, "2025-01-01T00:00:00.000Z", "ev2", "u", "", [], none⟩
        (trackerSendV2 "abc123" ⟨some "sid"⟩ JSValue.vNull
          ⟨1000, "2025-01-01T00:00:00.000Z", "ev1", "u", "", [], none⟩ []
          "page_view" []).registry "page_view" []).sent = none ∧
    hasDedupKey
      (expireDedup 3000
        (trackerSendV2 "abc123" ⟨some "sid"⟩ JSValue.vNull
          ⟨2500, "2025-01-01T00:00:00.000Z", "ev2", "u", "", [], none⟩
          (trackerSendV2 "abc123" ⟨some "sid"⟩ JSValue.vNull
            ⟨1000, "2025-01-01T00:00:00.000Z", "ev1", "u", "", [], none⟩ []
            "page_view" []).registry "page_view" []).registry)
      (dedupKey "page_view" "2025-01-01T00:00:00.000Z" []) = false :=
  c5_dedup_window "abc123" ⟨some "sid"⟩ JSValue.vNull
    ⟨1000, "2025-01-01T00:00:00.000Z", "ev1", "u", "", [], none⟩
    ⟨2500, "2025-01-01T00:00:00.000Z", "ev2", "u", "", [], none⟩ []
    "page_view" [] rfl rfl (by decide) rfl

/-- Overwriting an object field in place never changes the value read
at a different key. -/
theorem getProp_map_set (l : Payload) (kset k : String) (v : JSValue)
    (h : kset ≠ k) :
    getProp (l.map (fun kv => if kv.1 == kset then (kv.1, v) else kv)) k =
      getProp l k := by
  induction l with
  | nil => rfl
  | cons kv rest ih =>
      rw [List.map_cons]
      by_cases hset : kv.1 = kset
      · have hb : (kv.1 == kset) = true := beq_iff_eq.mpr hset
        have hkk : (kv.1 == k) = false :=
          beq_eq_false_iff_ne.mpr (by rw [hset]; exact h)
        rw [if_pos hb, getProp, getProp, if_neg (by simp [hkk]),
          if_neg (by simp [hkk])]
        exact ih
      · have hb : (kv.1 == kset) = false := beq_eq_false_iff_ne.mpr hset
        rw [if_neg (by simp [hb]), getProp, getProp]
        by_cases hkk : (kv.1 == k) = true
        · rw [if_pos hkk, if_pos hkk]
        · rw [if_neg hkk, if_neg hkk]
          exact ih

/-- Appending a field with a different key never changes the value read
at a key. -/
theorem getProp_append_single_ne (l : Payload) (kset k : String) (v : JSValue)
    (h : kset ≠ k) :
    getProp (l ++ [(kset, v)]) k = getProp l k := by
  induction l with
  | nil => simp [getProp, beq_eq_false_iff_ne.mpr h]
  | cons kv rest ih =>
      by_cases hkk : (kv.1 == k) = true <;> simp [getProp, hkk, ih]

/-- `objSet` at one key is invisible to `getProp` at any other key. -/
theorem getProp_objSet_ne (l : Payload) (kset k : String) (v : JSValue)
    (h : kset ≠ k) :
    getProp (objSet l kset v) k = getProp l k := by
  unfold objSet
  split
  · exact getProp_map_set l kset k v h
  · exact getProp_append_single_ne l kset k v h

/-- Folding `objSet` over fields none of which carries the key leaves
`getProp` at that key unchanged. -/
theorem getProp_merge_aux :
    ∀ (extra base : Payload) (k : String), (∀ kv ∈ extra, kv.1 ≠ k) →
      getProp (extra.foldl (fun acc kv => objSet acc kv.1 kv.2) base) k =
        getProp base k := by
  intro extra
  induction extra with
  | nil => intro base k _; rfl
  | cons kv rest ih =>
      intro base k hext
      rw [List.foldl_cons]
      rw [ih (objSet base kv.1 kv.2) k
        (fun x hx => hext x (List.mem_cons_of_mem kv hx))]
      exact getProp_objSet_ne base kv.1 k kv.2 (hext kv (List.mem_cons_self kv rest))

/-- Spreading an object none of whose keys equals `k` leaves `getProp`
at `k` unchanged. -/
theorem getProp_objMerge_ne (base extra : Payload) (k : String)
    (hext : ∀ kv ∈ extra, kv.1 ≠ k) :
    getProp (objMerge base extra) k = getProp base k :=
  getProp_merge_aux extra base k hext

/-- Each `replace` step of the UUID fallback pushes exactly one
character. -/
theorem uuidStep_fst_length (rand : Nat → Nat) (acc : String × Nat) (c : Char) :
    ((uuidStep rand acc c).1).length = acc.1.length + 1 := by
  unfold uuidStep
  split
  · simp
  · split
    · simp
    · simp

/-- Folding the UUID replacement over any character list grows the
accumulator by one character per template character. -/
theorem foldl_uuidStep_length (rand : Nat → Nat) :
    ∀ (cs : List Char) (acc : String × Nat),
      ((cs.foldl (uuidStep rand) acc).1).length = acc.1.length + cs.length := by
  intro cs
  induction cs with
  | nil => intro acc; simp
  | cons c rest ih =>
      intro acc
      rw [List.foldl_cons, ih, uuidStep_fst_length, List.length_cons]
      omega

/-- The `generateUUID` fallback always produces the 36 characters of
the template. -/
theorem uuidFallback_length (rand : Nat → Nat) : (uuidFallback rand).length = 36 := by
  unfold uuidFallback
  rw [foldl_uuidStep_length]
  decide

/-- The `generateUUID` fallback never produces the empty string. -/
theorem uuidFallback_ne_empty (rand : Nat → Nat) : uuidFallback rand ≠ "" := by
  intro h
  have hl := uuidFallback_length rand
  rw [h] at hl
  exact absurd hl (by decide)

/-- Reading one of the base payload fields through all the spreads of
`buildPayloadV2`: as long as neither the performance object, nor the
geolocation spread, nor the caller data, nor the two `trackingRequest*`
assignments carry the key, the value is the base object's. -/
theorem getProp_buildPayloadV2 (token : String) (sess : SessionState)
    (utm : JSValue) (env : TrackerEnv) (event : String) (data : Payload)
    (k : String)
    (hk1 : k ≠ "trackingRequestBytes") (hk2 : k ≠ "trackingRequestBody")
    (hkg1 : k ≠ "geolocation") (hkg2 : k ≠ "latitude")
    (hkg3 : k ≠ "longitude") (hkg4 : k ≠ "location_accuracy")
    (hperf : ∀ kv ∈ env.perfData, kv.1 ≠ k)
    (hdata : ∀ kv ∈ data, kv.1 ≠ k) :
    getProp (buildPayloadV2 token sess utm env event data) k =
      getProp
        [("event", JSValue.vStr (eventTypeMappingV2 event)),
          ("session_id", sessionGetIdJS sess),
          ("timestamp", .vStr env.isoTimestamp),
          ("tracker_token", .vStr token),
          ("utm_params", utm),
          ("event_id", .vStr env.eventId),
          ("user_id",
            if jsTruthy (getProp data "user_id") then getProp data "user_id"
            else sessionGetIdJS sess),
          ("page_url", .vStr env.pageUrl),
          ("referrer", .vStr env.referrer)] k := by
  simp only [buildPayloadV2]
  rw [getProp_objSet_ne _ _ _ _ (Ne.symm hk2)]
  rw [getProp_objSet_ne _ _ _ _ (Ne.symm hk1)]
  rw [getProp_objMerge_ne _ data k hdata]
  cases hg : (if (event == "session_start" || event == "conversion") = true
      then env.geo else none) with
  | none => rw [getProp_objMerge_ne _ env.perfData k hperf]
  | some g =>
      rw [getProp_objMerge_ne _ (geoSpread g) k ?_]
      · rw [getProp_objMerge_ne _ env.perfData k hperf]
      · intro kv hkv
        simp only [geoSpread, List.mem_cons, List.not_mem_nil, or_false] at hkv
        rcases hkv with rfl | rfl | rfl | rfl
        · exact Ne.symm hkg1
        · exact Ne.symm hkg2
        · exact Ne.symm hkg3
        · exact Ne.symm hkg4

/-- C6: after initializing with token `abc123`, a `session_start` send
from a freshly started session produces a payload whose wire event type
field is `session_start`, whose `session_id` is a nonempty string, and
whose `tracker_token` is `abc123` (the endpoint plays no role in the
payload; it only addresses the request).  The hypotheses say only that
the platform's `crypto.randomUUID` yields a nonempty identifier and
that neither the performance enrichment nor the caller data overrides
the three fields. -/
theorem c6_session_start_payload (cryptoUUID : Option String) (rand : Nat → Nat)
    (utm : JSValue) (env : TrackerEnv) (data : Payload)
    (hcrypto : ∀ u, cryptoUUID = some u → u ≠ "")
    (hperf : ∀ kv ∈ env.perfData,
      kv.1 ≠ "event" ∧ kv.1 ≠ "session_id" ∧ kv.1 ≠ "tracker_token")
    (hdata : ∀ kv ∈ data,
      kv.1 ≠ "event" ∧ kv.1 ≠ "session_id" ∧ kv.1 ≠ "tracker_token") :
    ((trackerSendV2 "abc123" (sessionStart cryptoUUID rand) utm env []
        "session_start" data).sent.map (fun p => getProp p "event")) =
      some (.vStr "session_start") ∧
    ((trackerSendV2 "abc123" (sessionStart cryptoUUID rand) utm env []
        "session_start" data).sent.map
      (fun p => jsStrNonempty (getProp p "session_id"))) = some true ∧
    ((trackerSendV2 "abc123" (sessionStart cryptoUUID rand) utm env []
        "session_start" data).sent.map (fun p => getProp p "tracker_token")) =
      some (.vStr "abc123") := by
  have hsent : (trackerSendV2 "abc123" (sessionStart cryptoUUID rand) utm env []
      "session_start" data).sent =
      some (buildPayloadV2 "abc123" (sessionStart cryptoUUID rand) utm env
        "session_start" data) := rfl
  have huuid : generateUUID cryptoUUID rand ≠ "" := by
    cases hcu : cryptoUUID with
    | some u => exact hcrypto u hcu
    | none => exact uuidFallback_ne_empty rand
  refine ⟨?_, ?_, ?_⟩
  · rw [hsent]
    simp only [Option.map]
    rw [getProp_buildPayloadV2 _ _ _ _ _ _ _ (by decide) (by decide) (by decide)
      (by decide) (by decide) (by decide)
      (fun kv hkv => (hperf kv hkv).1) (fun kv hkv => (hdata kv hkv).1)]
    rfl
  · rw [hsent]
    simp only [Option.map]
    rw [getProp_buildPayloadV2 _ _ _ _ _ _ _ (by decide) (by decide) (by decide)
      (by decide) (by decide) (by decide)
      (fun kv hkv => (hperf kv hkv).2.1) (fun kv hkv => (hdata kv hkv).2.1)]
    have hb : (generateUUID cryptoUUID rand == "") = false :=
      beq_eq_false_iff_ne.mpr huuid
    show some (!(generateUUID cryptoUUID rand == "")) = some true
    rw [hb]
    rfl
  · rw [hsent]
    simp only [Option.map]
    rw [getProp_buildPayloadV2 _ _ _ _ _ _ _ (by decide) (by decide) (by decide)
      (by decide) (by decide) (by decide)
      (fun kv hkv => (hperf kv hkv).2.2) (fun kv hkv => (hdata kv hkv).2.2)]
    rfl

/-- Witness for C6 with the crypto facility absent (template fallback)
and empty enrichment/caller data. -/
theorem c6_witness :
    ((trackerSendV2 "abc123" (sessionStart none (fun _ => 0)) JSValue.vNull
        ⟨0, "ts", "ev1", "u", "", [], none⟩ [] "session_start" []).sent.map
      (fun p => getProp p "event")) = some (.vStr "session_start") ∧
    ((trackerSendV2 "abc123" (sessionStart none (fun _ => 0)) JSValue.vNull
        ⟨0, "ts", "ev1", "u", "", [], none⟩ [] "session_start" []).sent.map
      (fun p => jsStrNonempty (getProp p "session_id"))) = some true ∧
    ((trackerSendV2 "abc123" (sessionStart none (fun _ => 0)) JSValue.vNull
        ⟨0, "ts", "ev1", "u", "", [], none⟩ [] "session_start" []).sent.map
      (fun p => getProp p "tracker_token")) = some (.vStr "abc123") :=
  c6_session_start_payload none (fun _ => 0) JSValue.vNull
    ⟨0, "ts", "ev1", "u", "", [], none⟩ []
    (fun u h => absurd h (by simp))
    (fun kv hkv => absurd hkv (List.not_mem_nil kv))
    (fun kv hkv => absurd hkv (List.not_mem_nil kv))

end CarbonCut
